import Mathlib

/-!
Shallow embedding of the CIRISBridge Galactic Unicorn status display
(`extras/galactic-unicorn/main.py`): the LED color policy, the 53×11
metric map, the fetch helpers, the grid renderer and the refresh loop.
-/

/-- The fixed palette of pens created at startup (`COLOR_*` constants). -/
inductive Color where
  | off
  | green
  | yellow
  | red
  | blue
  | purple
  | white
  | dimGreen
  | dimRed
deriving DecidableEq, Repr

/-- JSON-ish values stored in the `MetricState` dict: numbers (ints and
floats are modelled as rationals), booleans and strings. -/
inductive Value where
  | num (q : ℚ)
  | bool (b : Bool)
  | str (s : String)
deriving DecidableEq, Repr

/-- Python truthiness of a stored value (used by `COLOR_GREEN if value else COLOR_RED`). -/
def Value.truthy : Value → Bool
  | .num q => decide (q ≠ 0)
  | .bool b => b
  | .str s => decide (s ≠ "")

/-- Numeric interpretation used by Python's comparison operators:
booleans coerce to 0/1, strings have no numeric interpretation
(comparing them with a number raises `TypeError`). -/
def Value.toNum : Value → Option ℚ
  | .num q => some q
  | .bool b => some (if b then 1 else 0)
  | .str _ => none

/-- Python `value <= q`; raises (modelled as `.error ()`) on a non-number. -/
def pyLE (v : Value) (q : ℚ) : Except Unit Bool :=
  match v.toNum with
  | some x => .ok (decide (x ≤ q))
  | none => .error ()

/-- Python `value >= q`; raises on a non-number. -/
def pyGE (v : Value) (q : ℚ) : Except Unit Bool :=
  match v.toNum with
  | some x => .ok (decide (q ≤ x))
  | none => .error ()

/-- Python `value > 0`; raises on a non-number. -/
def pyGT0 (v : Value) : Except Unit Bool :=
  match v.toNum with
  | some x => .ok (decide (0 < x))
  | none => .error ()

/-- One metric config dict from `get_led_mapping`.  The `type` field is
kept as the raw string the source stores; `key`, `thresholds` and
`invert` are optional fields (`dict.get` with a default). -/
structure MetricConfig where
  name : String
  type : String
  source : String
  key : Option String := none
  thresholds : Option (ℚ × ℚ) := none
  invert : Bool := false
deriving DecidableEq, Repr

/-- `get_color_for_metric(metric_config, value)`: determine LED color from
metric type and value.  `value = none` models Python `None` (absent);
`.error ()` models an uncaught `TypeError` from comparing a string. -/
def get_color_for_metric (config : MetricConfig) (value : Option Value) :
    Except Unit Color :=
  match value with
  | none => .ok .blue
  | some v =>
    if config.type = "health" ∨ config.type = "boolean" then
      .ok (if v.truthy then .green else .red)
    else if config.type = "gauge" then
      match config.thresholds with
      | some (warn, crit) =>
        if config.invert then do
          if (← pyLE v crit) then pure .red
          else if (← pyLE v warn) then pure .yellow
          else pure .green
        else do
          if (← pyGE v crit) then pure .red
          else if (← pyGE v warn) then pure .yellow
          else pure .green
      | none => .ok .green
    else if config.type = "counter" then do
      if (← pyGT0 v) then pure .dimGreen else pure .off
    else if config.type = "reserved" then .ok .off
    else .ok .blue

/-! ## LED grid mapping (`get_led_mapping`) -/

/-- An insertion-ordered association list modelling the Python dict
`mapping : (x, y) -> metric_config`. -/
abbrev LedAssoc := List ((Nat × Nat) × MetricConfig)

/-- Python dict assignment `mapping[p] = c`: overwrite in place when the
key exists, otherwise append (insertion order preserved). -/
def dictSet (m : LedAssoc) (p : Nat × Nat) (c : MetricConfig) : LedAssoc :=
  if m.any (fun q => q.1 = p) then
    m.map (fun q => if q.1 = p then (p, c) else q)
  else m ++ [(p, c)]

/-- Row 0: critical alerts (53 assignments, in source order). -/
def row0 : LedAssoc :=
  [((0, 0), { name := "billing_us_health", type := "health", source := "billing_us" }),
   ((1, 0), { name := "billing_eu_health", type := "health", source := "billing_eu" }),
   ((2, 0), { name := "proxy_us_health", type := "health", source := "proxy_us" }),
   ((3, 0), { name := "proxy_eu_health", type := "health", source := "proxy_eu" }),
   ((4, 0), { name := "lens_health", type := "health", source := "lens" }),
   ((5, 0), { name := "postgres_us_health", type := "health", source := "db_us" }),
   ((6, 0), { name := "postgres_eu_health", type := "health", source := "db_eu" }),
   ((7, 0), { name := "replication_health", type := "health", source := "replication" }),
   ((8, 0), { name := "billing_errors_1h", type := "gauge", source := "lens_stats", key := some "billing_errors_1h", thresholds := some (5, 20) }),
   ((9, 0), { name := "proxy_errors_1h", type := "gauge", source := "lens_stats", key := some "proxy_errors_1h", thresholds := some (5, 20) }),
   ((10, 0), { name := "lens_errors_1h", type := "gauge", source := "lens_stats", key := some "lens_errors_1h", thresholds := some (5, 20) }),
   ((11, 0), { name := "db_errors_1h", type := "gauge", source := "lens_stats", key := some "db_errors_1h", thresholds := some (1, 5) }),
   ((12, 0), { name := "total_errors_1h", type := "gauge", source := "lens_stats", key := some "total_errors_1h", thresholds := some (10, 50) }),
   ((13, 0), { name := "total_errors_24h", type := "gauge", source := "lens_stats", key := some "total_errors_24h", thresholds := some (50, 200) }),
   ((14, 0), { name := "warnings_1h", type := "gauge", source := "lens_stats", key := some "warnings_1h", thresholds := some (20, 100) }),
   ((15, 0), { name := "warnings_24h", type := "gauge", source := "lens_stats", key := some "warnings_24h", thresholds := some (100, 500) }),
   ((16, 0), { name := "cert_billing_us", type := "gauge", source := "certs", key := some "billing_us_days", thresholds := some (30, 14), invert := true }),
   ((17, 0), { name := "cert_billing_eu", type := "gauge", source := "certs", key := some "billing_eu_days", thresholds := some (30, 14), invert := true }),
   ((18, 0), { name := "cert_proxy_us", type := "gauge", source := "certs", key := some "proxy_us_days", thresholds := some (30, 14), invert := true }),
   ((19, 0), { name := "cert_proxy_eu", type := "gauge", source := "certs", key := some "proxy_eu_days", thresholds := some (30, 14), invert := true }),
   ((20, 0), { name := "cert_lens", type := "gauge", source := "certs", key := some "lens_days", thresholds := some (30, 14), invert := true }),
   ((21, 0), { name := "cert_agents", type := "gauge", source := "certs", key := some "agents_days", thresholds := some (30, 14), invert := true }),
   ((22, 0), { name := "cert_root_us", type := "gauge", source := "certs", key := some "root_us_days", thresholds := some (30, 14), invert := true }),
   ((23, 0), { name := "cert_root_eu", type := "gauge", source := "certs", key := some "root_eu_days", thresholds := some (30, 14), invert := true }),
   ((24, 0), { name := "disk_us_root", type := "gauge", source := "system", key := some "disk_us_pct", thresholds := some (70, 85) }),
   ((25, 0), { name := "disk_eu_root", type := "gauge", source := "system", key := some "disk_eu_pct", thresholds := some (70, 85) }),
   ((26, 0), { name := "disk_us_docker", type := "gauge", source := "system", key := some "disk_us_docker_pct", thresholds := some (70, 85) }),
   ((27, 0), { name := "disk_eu_docker", type := "gauge", source := "system", key := some "disk_eu_docker_pct", thresholds := some (70, 85) }),
   ((28, 0), { name := "disk_us_postgres", type := "gauge", source := "system", key := some "disk_us_pg_pct", thresholds := some (60, 80) }),
   ((29, 0), { name := "disk_eu_postgres", type := "gauge", source := "system", key := some "disk_eu_pg_pct", thresholds := some (60, 80) }),
   ((30, 0), { name := "disk_us_logs", type := "gauge", source := "system", key := some "disk_us_logs_pct", thresholds := some (50, 75) }),
   ((31, 0), { name := "disk_eu_logs", type := "gauge", source := "system", key := some "disk_eu_logs_pct", thresholds := some (50, 75) }),
   ((32, 0), { name := "repl_us_to_eu_active", type := "boolean", source := "replication", key := some "us_to_eu_active" }),
   ((33, 0), { name := "repl_eu_to_us_active", type := "boolean", source := "replication", key := some "eu_to_us_active" }),
   ((34, 0), { name := "repl_us_to_eu_lag", type := "gauge", source := "replication", key := some "us_to_eu_lag_sec", thresholds := some (30, 120) }),
   ((35, 0), { name := "repl_eu_to_us_lag", type := "gauge", source := "replication", key := some "eu_to_us_lag_sec", thresholds := some (30, 120) }),
   ((36, 0), { name := "repl_slot_us_active", type := "boolean", source := "replication", key := some "slot_us_active" }),
   ((37, 0), { name := "repl_slot_eu_active", type := "boolean", source := "replication", key := some "slot_eu_active" }),
   ((38, 0), { name := "repl_wal_us_mb", type := "gauge", source := "replication", key := some "wal_us_mb", thresholds := some (100, 200) }),
   ((39, 0), { name := "repl_wal_eu_mb", type := "gauge", source := "replication", key := some "wal_eu_mb", thresholds := some (100, 200) }),
   ((40, 0), { name := "legacy_llm_health", type := "health", source := "legacy_llm" }),
   ((41, 0), { name := "legacy_billing_health", type := "health", source := "legacy_billing" }),
   ((42, 0), { name := "legacy_llm_traffic", type := "boolean", source := "legacy", key := some "llm_has_traffic" }),
   ((43, 0), { name := "legacy_billing_traffic", type := "boolean", source := "legacy", key := some "billing_has_traffic" }),
   ((44, 0), { name := "legacy_cirisnode0", type := "boolean", source := "legacy", key := some "cirisnode0_stopped" }),
   ((45, 0), { name := "dns_cutover_ready", type := "boolean", source := "legacy", key := some "dns_cutover_ready" }),
   ((46, 0), { name := "legacy_decom_safe", type := "boolean", source := "legacy", key := some "decom_safe" }),
   ((47, 0), { name := "migration_complete", type := "boolean", source := "legacy", key := some "migration_complete" }),
   ((48, 0), { name := "heartbeat_us_ok", type := "boolean", source := "heartbeat", key := some "us_ok" }),
   ((49, 0), { name := "heartbeat_eu_ok", type := "boolean", source := "heartbeat", key := some "eu_ok" }),
   ((50, 0), { name := "scheduler_us_ok", type := "boolean", source := "scheduler", key := some "us_ok" }),
   ((51, 0), { name := "scheduler_eu_ok", type := "boolean", source := "scheduler", key := some "eu_ok" }),
   ((52, 0), { name := "alerting_ok", type := "boolean", source := "alerting", key := some "ok" })]

/-- The billing endpoint list used for columns 16-31 of rows 1-2. -/
def billingEndpoints : List String :=
  ["health", "credit_check", "charge", "balance", "signup", "oauth", "admin", "metrics",
   "webhook", "refund", "history", "products", "verify", "status", "config", "keys"]

/-- Log level list shared by the log-metric loops. -/
def logLevels : List String := ["debug", "info", "warning", "error", "critical"]

/-- Per-level log thresholds, mirroring the source's conditional
expression `(100,500) if level=='debug' else (50,200) if 'info' else
(10,50) if 'warning' else (1,5)`. -/
def logThresh (level : String) : ℚ × ℚ :=
  if level = "debug" then (100, 500)
  else if level = "info" then (50, 200)
  else if level = "warning" then (10, 50)
  else (1, 5)

/-- One iteration of the `for row in [1, 2]` billing block (source order). -/
def billingRow (row : Nat) (region : String) : LedAssoc :=
  [((0, row), { name := "billing_" ++ region ++ "_requests_1m", type := "gauge", source := "billing_" ++ region, key := some "requests_1m", thresholds := some (100, 500) }),
   ((1, row), { name := "billing_" ++ region ++ "_requests_5m", type := "gauge", source := "billing_" ++ region, key := some "requests_5m", thresholds := some (500, 2000) }),
   ((2, row), { name := "billing_" ++ region ++ "_requests_1h", type := "gauge", source := "billing_" ++ region, key := some "requests_1h", thresholds := some (5000, 20000) }),
   ((3, row), { name := "billing_" ++ region ++ "_success_rate", type := "gauge", source := "billing_" ++ region, key := some "success_rate", thresholds := some (95, 99), invert := true }),
   ((4, row), { name := "billing_" ++ region ++ "_latency_p50", type := "gauge", source := "billing_" ++ region, key := some "latency_p50_ms", thresholds := some (100, 500) }),
   ((5, row), { name := "billing_" ++ region ++ "_latency_p95", type := "gauge", source := "billing_" ++ region, key := some "latency_p95_ms", thresholds := some (500, 2000) }),
   ((6, row), { name := "billing_" ++ region ++ "_latency_p99", type := "gauge", source := "billing_" ++ region, key := some "latency_p99_ms", thresholds := some (1000, 5000) }),
   ((7, row), { name := "billing_" ++ region ++ "_errors_1m", type := "gauge", source := "billing_" ++ region, key := some "errors_1m", thresholds := some (1, 5) }),
   ((8, row), { name := "billing_" ++ region ++ "_db_connected", type := "boolean", source := "billing_" ++ region, key := some "db_connected" }),
   ((9, row), { name := "billing_" ++ region ++ "_db_pool_used", type := "gauge", source := "billing_" ++ region, key := some "db_pool_used", thresholds := some (80, 95) }),
   ((10, row), { name := "billing_" ++ region ++ "_db_queries_1m", type := "gauge", source := "billing_" ++ region, key := some "db_queries_1m", thresholds := some (1000, 5000) }),
   ((11, row), { name := "billing_" ++ region ++ "_db_slow_queries", type := "gauge", source := "billing_" ++ region, key := some "db_slow_queries", thresholds := some (5, 20) }),
   ((12, row), { name := "billing_" ++ region ++ "_accounts_total", type := "counter", source := "billing_" ++ region, key := some "accounts_total" }),
   ((13, row), { name := "billing_" ++ region ++ "_accounts_active", type := "counter", source := "billing_" ++ region, key := some "accounts_active" }),
   ((14, row), { name := "billing_" ++ region ++ "_credits_total", type := "counter", source := "billing_" ++ region, key := some "credits_total" }),
   ((15, row), { name := "billing_" ++ region ++ "_charges_today", type := "counter", source := "billing_" ++ region, key := some "charges_today" })]
  ++ (billingEndpoints.enum.map fun ie =>
       ((16 + ie.1, row), { name := "billing_" ++ region ++ "_ep_" ++ ie.2, type := "health", source := "billing_" ++ region ++ "_endpoints", key := some ie.2 }))
  ++ [((32, row), { name := "billing_" ++ region ++ "_container_running", type := "boolean", source := "container_" ++ region, key := some "billing_running" }),
   ((33, row), { name := "billing_" ++ region ++ "_container_healthy", type := "boolean", source := "container_" ++ region, key := some "billing_healthy" }),
   ((34, row), { name := "billing_" ++ region ++ "_cpu_pct", type := "gauge", source := "container_" ++ region, key := some "billing_cpu", thresholds := some (70, 90) }),
   ((35, row), { name := "billing_" ++ region ++ "_mem_pct", type := "gauge", source := "container_" ++ region, key := some "billing_mem", thresholds := some (70, 90) }),
   ((36, row), { name := "billing_" ++ region ++ "_restarts", type := "gauge", source := "container_" ++ region, key := some "billing_restarts", thresholds := some (1, 3) }),
   ((37, row), { name := "billing_" ++ region ++ "_uptime_hours", type := "gauge", source := "container_" ++ region, key := some "billing_uptime_h", thresholds := some (1, 1/2), invert := true }),
   ((38, row), { name := "billing_" ++ region ++ "_image_latest", type := "boolean", source := "container_" ++ region, key := some "billing_latest" }),
   ((39, row), { name := "billing_" ++ region ++ "_network_ok", type := "boolean", source := "container_" ++ region, key := some "billing_network" })]
  ++ (logLevels.enum.map fun il =>
       ((40 + il.1, row), { name := "billing_" ++ region ++ "_log_" ++ il.2 ++ "_1h", type := "gauge", source := "logs_" ++ region, key := some ("billing_" ++ il.2 ++ "_1h"), thresholds := some (logThresh il.2) }))
  ++ [((45, row), { name := "billing_" ++ region ++ "_log_rate", type := "gauge", source := "logs_" ++ region, key := some "billing_rate_per_min", thresholds := some (100, 500) }),
   ((46, row), { name := "billing_" ++ region ++ "_log_errors_trend", type := "gauge", source := "logs_" ++ region, key := some "billing_error_trend", thresholds := some (0, 1) }),
   ((47, row), { name := "billing_" ++ region ++ "_log_anomaly", type := "boolean", source := "logs_" ++ region, key := some "billing_anomaly" }),
   ((48, row), { name := "billing_" ++ region ++ "_stripe_ok", type := "boolean", source := "billing_" ++ region ++ "_config", key := some "stripe_connected" }),
   ((49, row), { name := "billing_" ++ region ++ "_google_ok", type := "boolean", source := "billing_" ++ region ++ "_config", key := some "google_connected" }),
   ((50, row), { name := "billing_" ++ region ++ "_oauth_ok", type := "boolean", source := "billing_" ++ region ++ "_config", key := some "oauth_configured" }),
   ((51, row), { name := "billing_" ++ region ++ "_migrations_ok", type := "boolean", source := "billing_" ++ region ++ "_config", key := some "migrations_current" }),
   ((52, row), { name := "billing_" ++ region ++ "_version_ok", type := "boolean", source := "billing_" ++ region ++ "_config", key := some "version_match" })]

/-- The LLM provider list of rows 3-4. -/
def llmProviders : List String :=
  ["groq", "together", "openrouter", "anthropic", "openai", "google", "mistral", "cohere"]

/-- One iteration of the `for row in [3, 4]` proxy block (source order;
note the provider loop interleaves columns `8+i` and `16+i`). -/
def proxyRow (row : Nat) (region : String) : LedAssoc :=
  [((0, row), { name := "proxy_" ++ region ++ "_requests_1m", type := "gauge", source := "proxy_" ++ region, key := some "requests_1m", thresholds := some (50, 200) }),
   ((1, row), { name := "proxy_" ++ region ++ "_requests_5m", type := "gauge", source := "proxy_" ++ region, key := some "requests_5m", thresholds := some (200, 800) }),
   ((2, row), { name := "proxy_" ++ region ++ "_requests_1h", type := "gauge", source := "proxy_" ++ region, key := some "requests_1h", thresholds := some (2000, 8000) }),
   ((3, row), { name := "proxy_" ++ region ++ "_success_rate", type := "gauge", source := "proxy_" ++ region, key := some "success_rate", thresholds := some (95, 99), invert := true }),
   ((4, row), { name := "proxy_" ++ region ++ "_latency_p50", type := "gauge", source := "proxy_" ++ region, key := some "latency_p50_ms", thresholds := some (1000, 5000) }),
   ((5, row), { name := "proxy_" ++ region ++ "_latency_p95", type := "gauge", source := "proxy_" ++ region, key := some "latency_p95_ms", thresholds := some (5000, 15000) }),
   ((6, row), { name := "proxy_" ++ region ++ "_latency_p99", type := "gauge", source := "proxy_" ++ region, key := some "latency_p99_ms", thresholds := some (10000, 30000) }),
   ((7, row), { name := "proxy_" ++ region ++ "_errors_1m", type := "gauge", source := "proxy_" ++ region, key := some "errors_1m", thresholds := some (1, 5) })]
  ++ (llmProviders.enum.flatMap fun ip =>
       [((8 + ip.1, row), { name := "proxy_" ++ region ++ "_" ++ ip.2 ++ "_ok", type := "boolean", source := "proxy_" ++ region ++ "_providers", key := some (ip.2 ++ "_available") }),
        ((16 + ip.1, row), { name := "proxy_" ++ region ++ "_" ++ ip.2 ++ "_latency", type := "gauge", source := "proxy_" ++ region ++ "_providers", key := some (ip.2 ++ "_latency_ms"), thresholds := some (2000, 10000) })])
  ++ [((24, row), { name := "proxy_" ++ region ++ "_billing_ok", type := "boolean", source := "proxy_" ++ region, key := some "billing_connected" }),
   ((25, row), { name := "proxy_" ++ region ++ "_credit_checks_1m", type := "gauge", source := "proxy_" ++ region, key := some "credit_checks_1m", thresholds := some (50, 200) }),
   ((26, row), { name := "proxy_" ++ region ++ "_credit_check_latency", type := "gauge", source := "proxy_" ++ region, key := some "credit_check_latency_ms", thresholds := some (100, 500) }),
   ((27, row), { name := "proxy_" ++ region ++ "_charges_1m", type := "gauge", source := "proxy_" ++ region, key := some "charges_1m", thresholds := some (50, 200) }),
   ((28, row), { name := "proxy_" ++ region ++ "_charge_latency", type := "gauge", source := "proxy_" ++ region, key := some "charge_latency_ms", thresholds := some (100, 500) }),
   ((29, row), { name := "proxy_" ++ region ++ "_billing_errors", type := "gauge", source := "proxy_" ++ region, key := some "billing_errors_1h", thresholds := some (1, 5) }),
   ((30, row), { name := "proxy_" ++ region ++ "_insufficient_credits", type := "gauge", source := "proxy_" ++ region, key := some "insufficient_credits_1h", thresholds := some (10, 50) }),
   ((31, row), { name := "proxy_" ++ region ++ "_circuit_breaker", type := "boolean", source := "proxy_" ++ region, key := some "circuit_closed" }),
   ((32, row), { name := "proxy_" ++ region ++ "_container_running", type := "boolean", source := "container_" ++ region, key := some "proxy_running" }),
   ((33, row), { name := "proxy_" ++ region ++ "_container_healthy", type := "boolean", source := "container_" ++ region, key := some "proxy_healthy" }),
   ((34, row), { name := "proxy_" ++ region ++ "_cpu_pct", type := "gauge", source := "container_" ++ region, key := some "proxy_cpu", thresholds := some (70, 90) }),
   ((35, row), { name := "proxy_" ++ region ++ "_mem_pct", type := "gauge", source := "container_" ++ region, key := some "proxy_mem", thresholds := some (70, 90) }),
   ((36, row), { name := "proxy_" ++ region ++ "_restarts", type := "gauge", source := "container_" ++ region, key := some "proxy_restarts", thresholds := some (1, 3) }),
   ((37, row), { name := "proxy_" ++ region ++ "_uptime_hours", type := "gauge", source := "container_" ++ region, key := some "proxy_uptime_h", thresholds := some (1, 1/2), invert := true }),
   ((38, row), { name := "proxy_" ++ region ++ "_image_latest", type := "boolean", source := "container_" ++ region, key := some "proxy_latest" }),
   ((39, row), { name := "proxy_" ++ region ++ "_network_ok", type := "boolean", source := "container_" ++ region, key := some "proxy_network" })]
  ++ (logLevels.enum.map fun il =>
       ((40 + il.1, row), { name := "proxy_" ++ region ++ "_log_" ++ il.2 ++ "_1h", type := "gauge", source := "logs_" ++ region, key := some ("proxy_" ++ il.2 ++ "_1h"), thresholds := some (logThresh il.2) }))
  ++ [((45, row), { name := "proxy_" ++ region ++ "_log_rate", type := "gauge", source := "logs_" ++ region, key := some "proxy_rate_per_min", thresholds := some (100, 500) }),
   ((46, row), { name := "proxy_" ++ region ++ "_log_errors_trend", type := "gauge", source := "logs_" ++ region, key := some "proxy_error_trend", thresholds := some (0, 1) }),
   ((47, row), { name := "proxy_" ++ region ++ "_log_anomaly", type := "boolean", source := "logs_" ++ region, key := some "proxy_anomaly" }),
   ((48, row), { name := "proxy_" ++ region ++ "_shipper_ok", type := "boolean", source := "proxy_" ++ region ++ "_shipper", key := some "shipper_healthy" }),
   ((49, row), { name := "proxy_" ++ region ++ "_shipper_circuit", type := "boolean", source := "proxy_" ++ region ++ "_shipper", key := some "circuit_closed" }),
   ((50, row), { name := "proxy_" ++ region ++ "_shipper_buffer", type := "gauge", source := "proxy_" ++ region ++ "_shipper", key := some "buffer_pct", thresholds := some (50, 80) }),
   ((51, row), { name := "proxy_" ++ region ++ "_shipper_dropped", type := "gauge", source := "proxy_" ++ region ++ "_shipper", key := some "dropped_1h", thresholds := some (10, 100) }),
   ((52, row), { name := "proxy_" ++ region ++ "_shipper_backoff", type := "gauge", source := "proxy_" ++ region ++ "_shipper", key := some "backoff_sec", thresholds := some (30, 300) })]

/-- Grafana dashboard list for row 5, columns 11-20. -/
def grafanaDashboards : List String :=
  ["main", "services", "billing", "errors", "logs", "managers", "traces", "service_logs", "public", "telemetry"]

/-- Row 5: CIRISLens and infrastructure (source order). -/
def row5 : LedAssoc :=
  [((0, 5), { name := "lens_api_health", type := "health", source := "lens" }),
   ((1, 5), { name := "lens_grafana_health", type := "health", source := "grafana" }),
   ((2, 5), { name := "lens_db_health", type := "health", source := "lens_db" }),
   ((3, 5), { name := "lens_requests_1m", type := "gauge", source := "lens", key := some "requests_1m", thresholds := some (100, 500) }),
   ((4, 5), { name := "lens_log_ingestion_rate", type := "gauge", source := "lens", key := some "log_ingestion_per_min", thresholds := some (1000, 5000) }),
   ((5, 5), { name := "lens_total_logs", type := "counter", source := "lens", key := some "total_logs" }),
   ((6, 5), { name := "lens_total_agents", type := "counter", source := "lens", key := some "total_agents" }),
   ((7, 5), { name := "lens_active_agents", type := "counter", source := "lens", key := some "active_agents" }),
   ((8, 5), { name := "lens_total_managers", type := "counter", source := "lens", key := some "total_managers" }),
   ((9, 5), { name := "lens_db_size_gb", type := "gauge", source := "lens", key := some "db_size_gb", thresholds := some (5, 10) }),
   ((10, 5), { name := "lens_retention_days", type := "gauge", source := "lens", key := some "retention_days", thresholds := some (7, 3), invert := true })]
  ++ (grafanaDashboards.enum.map fun id2 =>
       ((11 + id2.1, 5), { name := "grafana_dash_" ++ id2.2, type := "boolean", source := "grafana", key := some ("dash_" ++ id2.2 ++ "_ok") }))
  ++ [((21, 5), { name := "alerting_enabled", type := "boolean", source := "alerting", key := some "enabled" }),
   ((22, 5), { name := "alerts_firing", type := "gauge", source := "alerting", key := some "firing_count", thresholds := some (1, 5) }),
   ((23, 5), { name := "alerts_pending", type := "gauge", source := "alerting", key := some "pending_count", thresholds := some (3, 10) }),
   ((24, 5), { name := "alert_heartbeat_us", type := "boolean", source := "alerting", key := some "heartbeat_us_ok" }),
   ((25, 5), { name := "alert_heartbeat_eu", type := "boolean", source := "alerting", key := some "heartbeat_eu_ok" }),
   ((26, 5), { name := "alert_notification_ok", type := "boolean", source := "alerting", key := some "notification_channel_ok" }),
   ((27, 5), { name := "caddy_us_health", type := "health", source := "caddy_us" }),
   ((28, 5), { name := "caddy_eu_health", type := "health", source := "caddy_eu" }),
   ((29, 5), { name := "caddy_us_requests_1m", type := "gauge", source := "caddy_us", key := some "requests_1m", thresholds := some (500, 2000) }),
   ((30, 5), { name := "caddy_eu_requests_1m", type := "gauge", source := "caddy_eu", key := some "requests_1m", thresholds := some (500, 2000) }),
   ((31, 5), { name := "caddy_us_errors_1m", type := "gauge", source := "caddy_us", key := some "errors_1m", thresholds := some (5, 20) }),
   ((32, 5), { name := "caddy_eu_errors_1m", type := "gauge", source := "caddy_eu", key := some "errors_1m", thresholds := some (5, 20) }),
   ((33, 5), { name := "tls_handshake_us", type := "gauge", source := "caddy_us", key := some "tls_handshake_ms", thresholds := some (100, 500) }),
   ((34, 5), { name := "tls_handshake_eu", type := "gauge", source := "caddy_eu", key := some "tls_handshake_ms", thresholds := some (100, 500) }),
   ((35, 5), { name := "dns_us_health", type := "health", source := "dns_us" }),
   ((36, 5), { name := "dns_eu_health", type := "health", source := "dns_eu" }),
   ((37, 5), { name := "dns_queries_1m", type := "gauge", source := "dns", key := some "queries_1m", thresholds := some (100, 500) }),
   ((38, 5), { name := "dns_cache_hit_rate", type := "gauge", source := "dns", key := some "cache_hit_pct", thresholds := some (80, 95), invert := true }),
   ((39, 5), { name := "dns_resolution_time", type := "gauge", source := "dns", key := some "resolution_ms", thresholds := some (50, 200) }),
   ((40, 5), { name := "redis_us_health", type := "health", source := "redis_us" }),
   ((41, 5), { name := "redis_us_memory_pct", type := "gauge", source := "redis_us", key := some "memory_pct", thresholds := some (70, 90) }),
   ((42, 5), { name := "redis_us_connections", type := "gauge", source := "redis_us", key := some "connections", thresholds := some (50, 100) }),
   ((43, 5), { name := "pgbouncer_us_health", type := "health", source := "pgbouncer_us" }),
   ((44, 5), { name := "pgbouncer_eu_health", type := "health", source := "pgbouncer_eu" }),
   ((45, 5), { name := "pgbouncer_us_active", type := "gauge", source := "pgbouncer_us", key := some "active_conns", thresholds := some (20, 40) }),
   ((46, 5), { name := "pgbouncer_eu_active", type := "gauge", source := "pgbouncer_eu", key := some "active_conns", thresholds := some (20, 40) }),
   ((47, 5), { name := "pgbouncer_us_waiting", type := "gauge", source := "pgbouncer_us", key := some "waiting_conns", thresholds := some (5, 15) }),
   ((48, 5), { name := "pgbouncer_eu_waiting", type := "gauge", source := "pgbouncer_eu", key := some "waiting_conns", thresholds := some (5, 15) }),
   ((49, 5), { name := "load_us_1m", type := "gauge", source := "system_us", key := some "load_1m", thresholds := some (2, 4) }),
   ((50, 5), { name := "load_eu_1m", type := "gauge", source := "system_eu", key := some "load_1m", thresholds := some (2, 4) }),
   ((51, 5), { name := "memory_us_pct", type := "gauge", source := "system_us", key := some "memory_pct", thresholds := some (70, 85) }),
   ((52, 5), { name := "memory_eu_pct", type := "gauge", source := "system_eu", key := some "memory_pct", thresholds := some (70, 85) })]

/-- Row 6: agents, managers and covenant metrics (source order). -/
def row6 : LedAssoc :=
  ((List.range 27).map fun i =>
    ((i, 6), { name := "agent_" ++ toString i ++ "_health", type := "health", source := "agents", key := some ("agent_" ++ toString i) : MetricConfig }))
  ++ ((List.range 10).map fun i =>
    ((27 + i, 6), { name := "manager_" ++ toString i ++ "_health", type := "health", source := "managers", key := some ("manager_" ++ toString i) : MetricConfig }))
  ++ [((37, 6), { name := "wbd_pending", type := "gauge", source := "covenant", key := some "wbd_pending", thresholds := some (5, 20) }),
   ((38, 6), { name := "wbd_total", type := "counter", source := "covenant", key := some "wbd_total" }),
   ((39, 6), { name := "pdma_pending", type := "gauge", source := "covenant", key := some "pdma_pending", thresholds := some (3, 10) }),
   ((40, 6), { name := "pdma_total", type := "counter", source := "covenant", key := some "pdma_total" }),
   ((41, 6), { name := "pdma_avg_risk", type := "gauge", source := "covenant", key := some "pdma_avg_risk", thresholds := some (1/2, 4/5) }),
   ((42, 6), { name := "creator_ledger_entries", type := "counter", source := "covenant", key := some "creator_entries" }),
   ((43, 6), { name := "sunset_pending", type := "gauge", source := "covenant", key := some "sunset_pending", thresholds := some (1, 5) }),
   ((44, 6), { name := "sunset_deferred", type := "gauge", source := "covenant", key := some "sunset_deferred", thresholds := some (3, 10) }),
   ((45, 6), { name := "compliance_score", type := "gauge", source := "covenant", key := some "avg_compliance", thresholds := some (9/10, 19/20), invert := true }),
   ((46, 6), { name := "agents_covenant_enabled", type := "counter", source := "covenant", key := some "agents_enabled" }),
   ((47, 6), { name := "agents_wbd_enabled", type := "counter", source := "covenant", key := some "wbd_enabled" }),
   ((48, 6), { name := "agents_pdma_enabled", type := "counter", source := "covenant", key := some "pdma_enabled" }),
   ((49, 6), { name := "principle_conflicts", type := "gauge", source := "covenant", key := some "conflicts_24h", thresholds := some (5, 20) }),
   ((50, 6), { name := "stakeholder_impacts", type := "counter", source := "covenant", key := some "stakeholder_impacts" }),
   ((51, 6), { name := "covenant_version", type := "counter", source := "covenant", key := some "version_count" }),
   ((52, 6), { name := "covenant_health", type := "health", source := "covenant" })]

/-- The full sequence of explicit `mapping[...] = ...` assignments of
rows 0-6, in program order (`for row in [1,2]` then `[3,4]`). -/
def ledAssignments : LedAssoc :=
  row0
  ++ ([1, 2].flatMap fun row => billingRow row (if row = 1 then "us" else "eu"))
  ++ ([3, 4].flatMap fun row => proxyRow row (if row = 3 then "us" else "eu"))
  ++ row5 ++ row6

/-- The dict after the explicit assignments of rows 0-6. -/
def mappingBeforeFill : LedAssoc :=
  ledAssignments.foldl (fun m pc => dictSet m pc.1 pc.2) []

/-- The coordinates visited by the reserved-fill loop
(`for row in range(7, 11): for col in range(53)`), in loop order. -/
def reservedFillCoords : List (Nat × Nat) :=
  (List.range' 7 4).flatMap fun row => (List.range 53).map fun col => (col, row)

/-- The reserved placeholder config `{'name': f'reserved_{col}_{row}',
'type': 'reserved', 'source': 'none'}`. -/
def reservedConfig (p : Nat × Nat) : MetricConfig :=
  { name := "reserved_" ++ toString p.1 ++ "_" ++ toString p.2, type := "reserved", source := "none" }

/-- `get_led_mapping()`: rows 0-6 assignments, then the reserved fill
which only writes coordinates not already in the dict. -/
def get_led_mapping : LedAssoc :=
  reservedFillCoords.foldl
    (fun m p => if m.any (fun q => q.1 = p) then m else dictSet m p (reservedConfig p))
    mappingBeforeFill

/-! ## Linear-time verified checkers over `Nat` bitmasks

Deciding nodup/coverage facts about the 583-entry mapping pairwise is
quadratic in slow reductions; instead we fold the data into `Nat`
bitmasks (kernel-accelerated arithmetic) and prove once that the
checkers imply the list-level facts. -/

/-- Bitmask with one bit set per element of `l`. -/
def maskOfList (l : List Nat) : Nat := l.foldl (fun acc n => acc ||| 1 <<< n) 0

/-- Linear duplicate detection: scan `l`, recording seen elements as
bits of `acc`; `false` iff some element repeats (or was preset in `acc`). -/
def listDistinct : List Nat → Nat → Bool
  | [], _ => true
  | n :: rest, acc => (acc &&& 1 <<< n == 0) && listDistinct rest (acc ||| 1 <<< n)

lemma and_one_shiftLeft_eq_zero_iff (acc n : Nat) :
    acc &&& 1 <<< n = 0 ↔ acc.testBit n = false := by
  rw [Nat.one_shiftLeft]
  constructor
  · intro h
    have h2 := congrArg (fun x => Nat.testBit x n) h
    simpa [Nat.testBit_and, Nat.testBit_two_pow_self] using h2
  · intro h
    apply Nat.eq_of_testBit_eq
    intro i
    rw [Nat.testBit_and, Nat.zero_testBit]
    by_cases hi : n = i
    · subst hi; simp [h]
    · simp [Nat.testBit_two_pow_of_ne hi]

lemma testBit_foldl_mask (l : List Nat) (acc k : Nat) :
    (l.foldl (fun a n => a ||| 1 <<< n) acc).testBit k = (acc.testBit k || decide (k ∈ l)) := by
  induction l generalizing acc with
  | nil => simp
  | cons n rest ih =>
    rw [List.foldl_cons, ih]
    simp only [Nat.testBit_or, Nat.one_shiftLeft, Nat.testBit_two_pow, List.mem_cons,
      Bool.or_assoc]
    by_cases h : n = k
    · simp [h]
    · have h' : k ≠ n := fun e => h e.symm
      simp [h, h']

lemma maskOfList_testBit (l : List Nat) (k : Nat) :
    (maskOfList l).testBit k = decide (k ∈ l) := by
  simpa [maskOfList] using testBit_foldl_mask l 0 k

lemma listDistinct_testBit :
    ∀ (l : List Nat) (acc : Nat), listDistinct l acc = true → ∀ m ∈ l, acc.testBit m = false := by
  intro l
  induction l with
  | nil => intro acc _ m hm; exact absurd hm (List.not_mem_nil m)
  | cons n rest ih =>
    intro acc h m hm
    simp only [listDistinct, Bool.and_eq_true, beq_iff_eq] at h
    obtain ⟨h1, h2⟩ := h
    rcases List.mem_cons.mp hm with rfl | hm'
    · exact (and_one_shiftLeft_eq_zero_iff acc m).mp h1
    · have h3 := ih _ h2 m hm'
      simp only [Nat.testBit_or] at h3
      exact (Bool.or_eq_false_iff.mp h3).1

lemma listDistinct_nodup :
    ∀ (l : List Nat) (acc : Nat), listDistinct l acc = true → l.Nodup := by
  intro l
  induction l with
  | nil => intro _ _; exact List.nodup_nil
  | cons n rest ih =>
    intro acc h
    simp only [listDistinct, Bool.and_eq_true, beq_iff_eq] at h
    obtain ⟨h1, h2⟩ := h
    refine List.nodup_cons.mpr ⟨fun hmem => ?_, ih _ h2⟩
    have h3 := listDistinct_testBit rest _ h2 n hmem
    simp [Nat.testBit_or, Nat.one_shiftLeft, Nat.testBit_two_pow_self] at h3

lemma maskOfList_disjoint {l1 l2 : List Nat} (h : maskOfList l1 &&& maskOfList l2 = 0) :
    ∀ n ∈ l1, n ∉ l2 := by
  intro n h1 h2
  have hb := congrArg (fun x => Nat.testBit x n) h
  simp [Nat.testBit_and, maskOfList_testBit, h1, h2] at hb

lemma maskOfList_full {l : List Nat} {B : Nat} (h : maskOfList l = 2 ^ B - 1) :
    ∀ n < B, n ∈ l := by
  intro n hn
  have h2 := maskOfList_testBit l n
  rw [h, Nat.testBit_two_pow_sub_one] at h2
  have h3 : decide (n ∈ l) = true := by rw [← h2]; simpa using hn
  exact of_decide_eq_true h3

/-! ## Flat form of the mapping -/

/-- Encode a grid coordinate as a small natural (injective on the 53-wide grid). -/
def encodeCoord (p : Nat × Nat) : Nat := p.1 + 53 * p.2

/-- The entries appended by the reserved-fill loop, in loop order. -/
def reservedEntries : LedAssoc := reservedFillCoords.map (fun p => (p, reservedConfig p))

/-- The mapping as a flat association list: rows 0-6, then the reserved fill. -/
def ledFlat : LedAssoc := ledAssignments ++ reservedEntries

/-- Injective numeric code of a string (base above every Unicode scalar). -/
def strCode (s : String) : Nat := s.data.foldl (fun h c => h * 1114112 + c.toNat) 0

set_option maxRecDepth 10000 in
lemma ledAssignments_enc_distinct :
    listDistinct (ledAssignments.map (fun pc => encodeCoord pc.1)) 0 = true := by decide

set_option maxRecDepth 10000 in
lemma reservedFillCoords_enc_distinct :
    listDistinct (reservedFillCoords.map encodeCoord) 0 = true := by decide

set_option maxRecDepth 10000 in
lemma enc_masks_disjoint :
    maskOfList (ledAssignments.map (fun pc => encodeCoord pc.1)) &&&
      maskOfList (reservedFillCoords.map encodeCoord) = 0 := by decide

set_option maxRecDepth 10000 in
lemma ledFlat_enc_full :
    maskOfList (ledFlat.map (fun pc => encodeCoord pc.1)) = 2 ^ 583 - 1 := by decide

set_option maxRecDepth 10000 in
lemma ledFlat_in_grid :
    ledFlat.all (fun pc => decide (pc.1.1 < 53) && decide (pc.1.2 < 11)) = true := by decide

set_option maxRecDepth 10000 in
lemma names_res_distinct : listDistinct
    ((ledFlat.filter (fun pc => pc.2.type ≠ "reserved")).map
      (fun pc => strCode pc.2.name % 999983)) 0 = true := by decide

set_option maxRecDepth 10000 in
lemma ledFlat_rows7_reserved_check :
    ledFlat.all (fun pc => decide (pc.1.2 ≤ 6) ||
      (decide (pc.2.type = "reserved") &&
       decide (pc.2.name = "reserved_" ++ toString pc.1.1 ++ "_" ++ toString pc.1.2))) = true := by
  decide

lemma ledAssignments_keys_nodup : (ledAssignments.map Prod.fst).Nodup := by
  have h := listDistinct_nodup _ _ ledAssignments_enc_distinct
  have h2 : (ledAssignments.map fun pc => encodeCoord pc.1) =
      (ledAssignments.map Prod.fst).map encodeCoord := by
    rw [List.map_map]; rfl
  rw [h2] at h
  exact h.of_map

lemma reservedFillCoords_nodup : reservedFillCoords.Nodup :=
  (listDistinct_nodup _ _ reservedFillCoords_enc_distinct).of_map

lemma fill_keys_fresh : ∀ p ∈ reservedFillCoords, p ∉ ledAssignments.map Prod.fst := by
  intro p hp hmem
  have h1 : encodeCoord p ∈ ledAssignments.map fun pc => encodeCoord pc.1 := by
    have := List.mem_map_of_mem encodeCoord hmem
    rwa [List.map_map] at this
  have h2 : encodeCoord p ∈ reservedFillCoords.map encodeCoord :=
    List.mem_map_of_mem encodeCoord hp
  exact maskOfList_disjoint enc_masks_disjoint _ h1 h2

lemma any_key_eq_false (m : LedAssoc) (p : Nat × Nat) (h : p ∉ m.map Prod.fst) :
    m.any (fun q => q.1 = p) = false := by
  rw [← Bool.not_eq_true]
  intro hb
  obtain ⟨q, hq, hqp⟩ := List.any_eq_true.mp hb
  exact h (List.mem_map.mpr ⟨q, hq, of_decide_eq_true hqp⟩)

lemma dictSet_fresh (m : LedAssoc) (p : Nat × Nat) (c : MetricConfig)
    (h : p ∉ m.map Prod.fst) : dictSet m p c = m ++ [(p, c)] := by
  unfold dictSet
  rw [any_key_eq_false m p h]
  simp

lemma foldl_dictSet_fresh :
    ∀ (l m : LedAssoc), (∀ pc ∈ l, pc.1 ∉ m.map Prod.fst) → (l.map Prod.fst).Nodup →
      l.foldl (fun acc pc => dictSet acc pc.1 pc.2) m = m ++ l := by
  intro l
  induction l with
  | nil => intro m _ _; simp
  | cons pc rest ih =>
    intro m hfresh hnodup
    have hkey : pc.1 ∉ rest.map Prod.fst := by
      have hn := hnodup
      rw [List.map_cons] at hn
      exact (List.nodup_cons.mp hn).1
    rw [List.foldl_cons, dictSet_fresh m pc.1 pc.2 (hfresh pc (List.mem_cons_self _ _)),
      ih (m ++ [(pc.1, pc.2)]) ?_ ?_]
    · simp
    · intro qc hqc hmem
      rw [List.map_append] at hmem
      rcases List.mem_append.mp hmem with hA | hB
      · exact hfresh qc (List.mem_cons_of_mem _ hqc) hA
      · simp only [List.map_cons, List.map_nil, List.mem_singleton] at hB
        exact hkey (hB ▸ List.mem_map_of_mem Prod.fst hqc)
    · have hn := hnodup
      rw [List.map_cons] at hn
      exact (List.nodup_cons.mp hn).2

lemma foldl_fill_fresh :
    ∀ (coords : List (Nat × Nat)) (m : LedAssoc),
      (∀ p ∈ coords, p ∉ m.map Prod.fst) → coords.Nodup →
      coords.foldl
        (fun acc p => if acc.any (fun q => q.1 = p) then acc else dictSet acc p (reservedConfig p)) m
      = m ++ coords.map (fun p => (p, reservedConfig p)) := by
  intro coords
  induction coords with
  | nil => intro m _ _; simp
  | cons p rest ih =>
    intro m hfresh hnodup
    have hp : p ∉ m.map Prod.fst := hfresh p (List.mem_cons_self _ _)
    have hkey : p ∉ rest := (List.nodup_cons.mp hnodup).1
    rw [List.foldl_cons, any_key_eq_false m p hp]
    simp only [Bool.false_eq_true, if_false]
    rw [dictSet_fresh m p (reservedConfig p) hp, ih (m ++ [(p, reservedConfig p)]) ?_ ?_]
    · simp
    · intro q hq hmem
      rw [List.map_append] at hmem
      rcases List.mem_append.mp hmem with hA | hB
      · exact hfresh q (List.mem_cons_of_mem _ hq) hA
      · simp only [List.map_cons, List.map_nil, List.mem_singleton] at hB
        exact hkey (hB ▸ hq)
    · exact (List.nodup_cons.mp hnodup).2

/-- The dict built by `get_led_mapping` is exactly the flat list: no
explicit assignment ever overwrites an earlier key, and the reserved
fill only appends fresh coordinates. -/
lemma get_led_mapping_eq : get_led_mapping = ledFlat := by
  unfold get_led_mapping mappingBeforeFill ledFlat reservedEntries
  rw [foldl_dictSet_fresh ledAssignments [] (by intro pc _ h; simp at h) ledAssignments_keys_nodup,
    List.nil_append]
  exact foldl_fill_fresh reservedFillCoords ledAssignments fill_keys_fresh reservedFillCoords_nodup

lemma ledFlat_keys_nodup : (ledFlat.map Prod.fst).Nodup := by
  unfold ledFlat reservedEntries
  rw [List.map_append, List.map_map]
  have hres : (reservedFillCoords.map (Prod.fst ∘ fun p => (p, reservedConfig p))) =
      reservedFillCoords := List.map_id' reservedFillCoords
  rw [hres]
  exact List.Nodup.append ledAssignments_keys_nodup reservedFillCoords_nodup
    (fun a ha hb => fill_keys_fresh a hb ha)

lemma ledFlat_total : ∀ x, x < 53 → ∀ y, y < 11 → (x, y) ∈ ledFlat.map Prod.fst := by
  intro x hx y hy
  have hn : x + 53 * y < 583 := by omega
  have hmem : x + 53 * y ∈ ledFlat.map fun pc => encodeCoord pc.1 :=
    maskOfList_full ledFlat_enc_full _ hn
  obtain ⟨pc, hpc, hcode⟩ := List.mem_map.mp hmem
  have hgrid := List.all_eq_true.mp ledFlat_in_grid pc hpc
  simp only [Bool.and_eq_true, decide_eq_true_eq] at hgrid
  have hxy : pc.1.1 = x ∧ pc.1.2 = y := by
    unfold encodeCoord at hcode
    omega
  have : pc.1 = (x, y) := by
    obtain ⟨h1, h2⟩ := hxy
    exact Prod.ext h1 h2
  exact this ▸ List.mem_map_of_mem Prod.fst hpc

lemma assoc_unique :
    ∀ {l : LedAssoc}, (l.map Prod.fst).Nodup →
      ∀ {p : Nat × Nat} {c c' : MetricConfig}, (p, c) ∈ l → (p, c') ∈ l → c = c' := by
  intro l
  induction l with
  | nil => intro _ p c c' h1; cases h1
  | cons q rest ih =>
    intro hnodup p c c' h1 h2
    rw [List.map_cons] at hnodup
    obtain ⟨hq, hrest⟩ := List.nodup_cons.mp hnodup
    rcases List.mem_cons.mp h1 with he1 | h1' <;> rcases List.mem_cons.mp h2 with he2 | h2'
    · rw [← he1] at he2
      exact (Prod.mk.injEq _ _ _ _ ▸ he2).2.symm
    · exfalso
      apply hq
      have : q.1 = p := by rw [← he1]
      exact this ▸ List.mem_map_of_mem Prod.fst h2'
    · exfalso
      apply hq
      have : q.1 = p := by rw [← he2]
      exact this ▸ List.mem_map_of_mem Prod.fst h1'
    · exact ih hrest h1' h2'

lemma nonreserved_names_nodup :
    ((ledFlat.filter fun pc => pc.2.type ≠ "reserved").map fun pc => pc.2.name).Nodup := by
  have h := listDistinct_nodup _ _ names_res_distinct
  have h2 : ((ledFlat.filter fun pc => pc.2.type ≠ "reserved").map
      fun pc => strCode pc.2.name % 999983) =
      ((ledFlat.filter fun pc => pc.2.type ≠ "reserved").map fun pc => pc.2.name).map
        (fun s => strCode s % 999983) := by
    rw [List.map_map]; rfl
  rw [h2] at h
  exact h.of_map

/-! ## StatusStore and per-cell value resolution -/

/-- The `MetricState.data` dict: string key to latest fetched value. -/
def Store := String → Option Value

/-- `state.set(key, value)`. -/
def storeSet (st : Store) (k : String) (v : Value) : Store :=
  fun q => if q = k then some v else st q

/-- The store at startup (`MetricState()` with an empty dict). -/
def emptyStore : Store := fun _ => none

/-- Per-cell value lookup in `render_display`:
health cells read `state.get(f'{source}_health', state.get(metric_name))`,
all others read `state.get(key, state.get(metric_name))` with
`key = config.get('key', metric_name)`. -/
def cellValue (st : Store) (config : MetricConfig) : Option Value :=
  let key := config.key.getD config.name
  if config.type = "health" then (st (config.source ++ "_health")).or (st config.name)
  else (st key).or (st config.name)

/-! ## Grid rendering -/

/-- Operations issued to the pixel surface while rendering one frame. -/
inductive DispOp where
  | clear
  | pixel (x y : Nat) (c : Color)
  | present
deriving DecidableEq, Repr

/-- Body of the render loop for one mapping item: resolve the value, ask
the color policy, emit one pixel write; a policy exception propagates. -/
def renderCell (st : Store) (item : (Nat × Nat) × MetricConfig) : Except Unit DispOp := do
  let color ← get_color_for_metric item.2 (cellValue st item.2)
  pure (DispOp.pixel item.1.1 item.1.2 color)

/-- The `for (x, y), config in mapping.items()` loop: one pixel write
per item, in dict iteration order; an exception aborts the loop. -/
def renderCells (st : Store) : LedAssoc → Except Unit (List DispOp)
  | [] => .ok []
  | item :: rest => do
    let op ← renderCell st item
    let ops ← renderCells st rest
    pure (op :: ops)

/-- `render_display()`: clear with the off pen, write one pixel per
mapping item, then present via `gu.update`. -/
def render_display (st : Store) : Except Unit (List DispOp) := do
  let cellOps ← renderCells st get_led_mapping
  pure (DispOp.clear :: (cellOps ++ [DispOp.present]))

/-- Whether an exceptional computation succeeded. -/
def exceptIsOk {ε α : Type} : Except ε α → Bool
  | .ok _ => true
  | .error _ => false

/-! ## Fetching -/

/-- Outcome of one HTTP request: a response carrying the status code and
the parsed JSON object (`none` when `response.json()`/field access would
raise), or a raised timeout/transport exception. -/
inductive HttpResult where
  | response (code : Nat) (body : Option (List (String × Value)))
  | exn
deriving DecidableEq, Repr

/-- `fetch_health(url)`: `True` iff HTTP 200 with `status=='healthy'` or
`database=='connected'`, or HTTP 401; every other code, parse failure,
or exception yields `False` (all exceptions are caught inside). -/
def fetch_health : HttpResult → Bool
  | .exn => false
  | .response code body =>
    if code = 200 then
      match body with
      | none => false
      | some data =>
        (data.lookup "status" == some (Value.str "healthy")) ||
        (data.lookup "database" == some (Value.str "connected"))
    else if code = 401 then true
    else false

/-- `fetch_lens_stats()`: the parsed JSON object on HTTP 200, `{}` on
any other status, parse failure, or exception. -/
def fetch_lens_stats : HttpResult → List (String × Value)
  | .exn => []
  | .response code body =>
    if code = 200 then
      match body with
      | none => []
      | some data => data
    else []

/-- The health-check section of `fetch_all_metrics`: five `state.set`
calls in source order. -/
def fetchAllHealth (st : Store)
    (rBillingUs rBillingEu rProxyUs rProxyEu rLens : HttpResult) : Store :=
  storeSet (storeSet (storeSet (storeSet (storeSet st
    "billing_us_health" (.bool (fetch_health rBillingUs)))
    "billing_eu_health" (.bool (fetch_health rBillingEu)))
    "proxy_us_health" (.bool (fetch_health rProxyUs)))
    "proxy_eu_health" (.bool (fetch_health rProxyEu)))
    "lens_health" (.bool (fetch_health rLens))

/-- The lens-stats section of `fetch_all_metrics`:
`if lens_data: for key, value in lens_data.items(): state.set(f'lens_{key}', value)`. -/
def fetchLensInto (st : Store) (r : HttpResult) : Store :=
  let lens_data := fetch_lens_stats r
  if lens_data.isEmpty then st
  else lens_data.foldl (fun s kv => storeSet s ("lens_" ++ kv.1) kv.2) st

/-! ## One iteration of the main refresh loop -/

/-- Result of executing `fetch_all_metrics(); render_display()`. -/
inductive Outcome where
  | ok
  | exn
deriving DecidableEq, Repr

/-- Externally observable actions of one loop iteration. -/
inductive LoopEv where
  | adjustBrightness (up : Bool)
  | fetchRender
  | showError
deriving DecidableEq, Repr

/-- Inputs of one loop iteration: button states, the tick clock, and the
outcome each fetch+render would have if executed. -/
structure IterInput where
  brightUp : Bool
  brightDown : Bool
  switchA : Bool
  now : Nat
  buttonOutcome : Outcome
  periodicOutcome : Outcome

/-- Observable result of one loop iteration. -/
structure IterOut where
  events : List LoopEv
  lastFetch : Nat
  crashed : Bool
deriving DecidableEq, Repr

def REFRESH_INTERVAL_MS : Nat := 30000

/-- The periodic-refresh tail of the loop body: on an elapsed interval,
`try: fetch+render except: show_error_pattern()`, and in either case
`last_fetch = time.ticks_ms()` after the `try`/`except`. -/
def periodicPhase (evs : List LoopEv) (lastFetch : Nat) (inp : IterInput) : IterOut :=
  if inp.now - lastFetch > REFRESH_INTERVAL_MS then
    match inp.periodicOutcome with
    | .ok => { events := evs ++ [.fetchRender], lastFetch := inp.now, crashed := false }
    | .exn => { events := evs ++ [.showError], lastFetch := inp.now, crashed := false }
  else { events := evs, lastFetch := lastFetch, crashed := false }

/-- One iteration of the `while True` body of `main()`: brightness
buttons, the SWITCH_A forced refresh (which has no `try`/`except`, so an
exception there propagates out of `main`), then the periodic refresh. -/
def loopIter (lastFetch : Nat) (inp : IterInput) : IterOut :=
  let evs := (if inp.brightUp then [LoopEv.adjustBrightness true] else []) ++
             (if inp.brightDown then [LoopEv.adjustBrightness false] else [])
  if inp.switchA then
    match inp.buttonOutcome with
    | .exn => { events := evs, lastFetch := lastFetch, crashed := true }
    | .ok => periodicPhase (evs ++ [.fetchRender]) inp.now inp
  else periodicPhase evs lastFetch inp

/-! ## Color-policy theorems -/

lemma gauge_color_not_invert (cfg : MetricConfig) (warn crit q : ℚ)
    (ht : cfg.type = "gauge") (hth : cfg.thresholds = some (warn, crit)) (hi : cfg.invert = false) :
    get_color_for_metric cfg (some (.num q)) =
      .ok (if crit ≤ q then .red else if warn ≤ q then .yellow else .green) := by
  simp only [get_color_for_metric, ht, hth, hi, pyGE, pyLE, Value.toNum]
  simp only [String.reduceEq, or_self, if_false, Bool.false_eq_true, reduceCtorEq]
  by_cases h1 : crit ≤ q <;> by_cases h2 : warn ≤ q <;> simp [h1, h2] <;> rfl

lemma gauge_color_invert (cfg : MetricConfig) (warn crit q : ℚ)
    (ht : cfg.type = "gauge") (hth : cfg.thresholds = some (warn, crit)) (hi : cfg.invert = true) :
    get_color_for_metric cfg (some (.num q)) =
      .ok (if q ≤ crit then .red else if q ≤ warn then .yellow else .green) := by
  simp only [get_color_for_metric, ht, hth, hi, pyGE, pyLE, Value.toNum]
  simp only [String.reduceEq, or_self, if_false, Bool.false_eq_true, reduceCtorEq]
  by_cases h1 : q ≤ crit <;> by_cases h2 : q ≤ warn <;> simp [h1, h2] <;> rfl



def palette : List Color := [.off, .green, .yellow, .red, .blue, .purple, .white, .dimGreen, .dimRed]

def dnsCacheHitRateCfg : MetricConfig :=
  { name := "dns_cache_hit_rate", type := "gauge", source := "dns", key := some "cache_hit_pct", thresholds := some (80, 95), invert := true }

/-- C1: for every Gauge metric carrying a thresholds pair `(warn, crit)`
and a present numeric value, the color policy obeys the threshold rule:
with `invert = false` it yields Critical (red) iff `value ≥ crit`,
Warning (yellow) iff `warn ≤ value < crit`, Healthy (green) otherwise;
with `invert = true` it yields Critical iff `value ≤ crit`, Warning iff
`crit < value ≤ warn`, Healthy otherwise.  In particular a value equal
to `crit` is Critical and a value equal to `warn` not past `crit` is
Warning, in both directions. -/
theorem gauge_threshold_rule (cfg : MetricConfig) (warn crit q : ℚ)
    (ht : cfg.type = "gauge") (hth : cfg.thresholds = some (warn, crit)) :
    (cfg.invert = false →
      ((get_color_for_metric cfg (some (.num q)) = .ok .red ↔ crit ≤ q) ∧
       (get_color_for_metric cfg (some (.num q)) = .ok .yellow ↔ warn ≤ q ∧ q < crit) ∧
       (get_color_for_metric cfg (some (.num q)) = .ok .green ↔ q < warn ∧ q < crit))) ∧
    (cfg.invert = true →
      ((get_color_for_metric cfg (some (.num q)) = .ok .red ↔ q ≤ crit) ∧
       (get_color_for_metric cfg (some (.num q)) = .ok .yellow ↔ crit < q ∧ q ≤ warn) ∧
       (get_color_for_metric cfg (some (.num q)) = .ok .green ↔ crit < q ∧ warn < q))) := by
  constructor
  · intro hi
    rw [gauge_color_not_invert cfg warn crit q ht hth hi]
    simp only [← not_le]
    refine ⟨?_, ?_, ?_⟩ <;>
      (by_cases h1 : crit ≤ q <;> by_cases h2 : warn ≤ q <;> simp [h1, h2])
  · intro hi
    rw [gauge_color_invert cfg warn crit q ht hth hi]
    simp only [← not_le]
    refine ⟨?_, ?_, ?_⟩ <;>
      (by_cases h1 : q ≤ crit <;> by_cases h2 : q ≤ warn <;> simp [h1, h2])

theorem gauge_threshold_rule_witness :
    get_color_for_metric { name := "billing_errors_1h", type := "gauge", source := "lens_stats", key := some "billing_errors_1h", thresholds := some (5, 20) } (some (.num 25)) = Except.ok Color.red ∧
    get_color_for_metric { name := "cert_lens", type := "gauge", source := "certs", key := some "lens_days", thresholds := some (30, 14), invert := true } (some (.num 10)) = Except.ok Color.red := by
  constructor
  · exact (((gauge_threshold_rule _ 5 20 25 rfl rfl).1 rfl).1).mpr (by norm_num)
  · exact (((gauge_threshold_rule _ 30 14 10 rfl rfl).2 rfl).1).mpr (by norm_num)

/-- C2: for every metric descriptor of any kind, resolving an absent
value (no entry under the cell's lookup keys in the StatusStore) yields
the Unknown color (informational blue), which is neither Off nor the
Healthy green. -/
theorem absent_value_unknown (cfg : MetricConfig) (st : Store)
    (h : cellValue st cfg = none) :
    get_color_for_metric cfg (cellValue st cfg) = .ok .blue ∧
    Color.blue ≠ Color.off ∧ Color.blue ≠ Color.green := by
  rw [h]
  exact ⟨rfl, by decide, by decide⟩

theorem absent_value_unknown_witness :
    get_color_for_metric (reservedConfig (0, 7)) (cellValue emptyStore (reservedConfig (0, 7))) =
      Except.ok Color.blue :=
  (absent_value_unknown (reservedConfig (0, 7)) emptyStore rfl).1

set_option maxRecDepth 10000 in
/-- C3 counterexample: the claim says a Reserved cell resolves to Off
for every possible value including an absent one; but for the Reserved
descriptor actually mapped at (0, 7), an absent value resolves to blue,
not Off — the `value is None` check precedes the kind dispatch. -/
theorem reserved_absent_not_off :
    ((0, 7), reservedConfig (0, 7)) ∈ get_led_mapping ∧
    get_color_for_metric (reservedConfig (0, 7)) none = Except.ok Color.blue ∧
    get_color_for_metric (reservedConfig (0, 7)) none ≠ Except.ok Color.off := by
  refine ⟨?_, rfl, fun h => Color.noConfusion (Except.ok.inj h)⟩
  rw [get_led_mapping_eq]
  decide

/-- C3 (amended): for every cell whose descriptor has kind Reserved,
the color policy returns the Off color for every present value; an
absent value instead yields the Unknown color (blue). -/
theorem reserved_present_value_off (cfg : MetricConfig) (v : Value)
    (ht : cfg.type = "reserved") :
    get_color_for_metric cfg (some v) = .ok .off := by
  simp [get_color_for_metric, ht]

theorem reserved_present_value_off_witness :
    get_color_for_metric (reservedConfig (0, 7)) (some (.bool true)) = Except.ok Color.off :=
  reserved_present_value_off (reservedConfig (0, 7)) (.bool true) rfl

/-- C10: the color policy is total over the kind tag — for any metric
whose kind string is outside the five known kinds and any present
value, it falls through to the Unknown (blue) color, a member of the
fixed palette, rather than failing. -/
theorem unknown_kind_blue (cfg : MetricConfig) (v : Value)
    (h : cfg.type ∉ (["health", "boolean", "gauge", "counter", "reserved"] : List String)) :
    get_color_for_metric cfg (some v) = .ok .blue ∧ Color.blue ∈ palette := by
  have h5 : cfg.type ≠ "health" ∧ cfg.type ≠ "boolean" ∧ cfg.type ≠ "gauge" ∧
      cfg.type ≠ "counter" ∧ cfg.type ≠ "reserved" := by simpa using h
  obtain ⟨h1, h2, h3, h4, h5⟩ := h5
  refine ⟨?_, by decide⟩
  simp [get_color_for_metric, h1, h2, h3, h4, h5]

theorem unknown_kind_blue_witness :
    get_color_for_metric { name := "m", type := "mystery", source := "s" } (some (.str "x")) =
      Except.ok Color.blue :=
  (unknown_kind_blue { name := "m", type := "mystery", source := "s" } (.str "x") (by decide)).1

set_option maxRecDepth 10000 in
/-- C4 (code bug): the claim requires every Gauge descriptor with
`invert = true` to satisfy `crit < warn` (smaller-is-worse) so the
Warning band is non-empty; the mapped descriptor `dns_cache_hit_rate`
at (38, 5) has thresholds `(80, 95)` with `invert = true`, violating
`crit < warn`: a cache-hit rate of 90 renders Critical (red) and the
Warning color is unattainable for every value.  (Same slip:
`billing/proxy success_rate (95, 99)` and `compliance_score
(0.9, 0.95)`.) -/
theorem inverted_gauge_thresholds_violation :
    ((38, 5), dnsCacheHitRateCfg) ∈ get_led_mapping ∧
    dnsCacheHitRateCfg.invert = true ∧
    dnsCacheHitRateCfg.thresholds = some (80, 95) ∧
    ¬((95 : ℚ) < 80) ∧
    get_color_for_metric dnsCacheHitRateCfg (some (.num 90)) = Except.ok Color.red ∧
    (∀ q : ℚ, get_color_for_metric dnsCacheHitRateCfg (some (.num q)) ≠ Except.ok Color.yellow) := by
  refine ⟨?_, rfl, rfl, by norm_num, ?_, ?_⟩
  · rw [get_led_mapping_eq]
    decide
  · rw [gauge_color_invert dnsCacheHitRateCfg 80 95 90 rfl rfl rfl]
    norm_num
  · intro q
    rw [gauge_color_invert dnsCacheHitRateCfg 80 95 q rfl rfl rfl]
    by_cases h1 : q ≤ 95
    · simp [h1]
    · have h2 : ¬ q ≤ 80 := fun h => h1 (le_trans h (by norm_num))
      simp [h1, h2]

/-! ## Fetch and scheduler theorems -/

/-- Health policy as the spec words it (refinement target for `fetch_health`):
HTTP 200 with body field `status == "healthy"` or `database == "connected"`,
or HTTP 401 ("up but requires auth"). -/
def healthPolicySpec (r : HttpResult) : Prop :=
  (∃ data, r = .response 200 (some data) ∧
    (data.lookup "status" = some (.str "healthy") ∨
     data.lookup "database" = some (.str "connected"))) ∨
  (∃ body, r = .response 401 body)

/-- C5: for every HTTP outcome, `fetch_health` reports healthy iff the
response is 200 with `status == "healthy"` or `database == "connected"`,
or the status is 401; every other status, timeout, or transport error
reports unhealthy, and `fetch_all_metrics` always stores a present
boolean (never an absent value) under the health key.  `fetch_health`
is a total function of the outcome, so no exception reaches its
caller. -/
theorem health_fetch_policy (r : HttpResult) :
    (fetch_health r = true ↔ healthPolicySpec r) ∧
    (∀ st r2 r3 r4 r5,
      fetchAllHealth st r r2 r3 r4 r5 "billing_us_health" = some (.bool (fetch_health r))) := by
  constructor
  · cases r with
    | exn => simp [fetch_health, healthPolicySpec]
    | response code body =>
      by_cases hc : code = 200
      · subst hc
        cases body with
        | none => simp [fetch_health, healthPolicySpec]
        | some data => simp [fetch_health, healthPolicySpec]
      · by_cases hc4 : code = 401
        · subst hc4
          simp [fetch_health, healthPolicySpec]
        · simp [fetch_health, healthPolicySpec, hc, hc4]
  · intro st r2 r3 r4 r5
    simp [fetchAllHealth, storeSet]

lemma string_append_left_cancel {p s t : String} (h : p ++ s = p ++ t) : s = t := by
  have hd := congrArg String.data h
  rw [String.data_append, String.data_append] at hd
  exact String.ext (List.append_cancel_left hd)

lemma foldl_storeSet_preserve :
    ∀ (fields : List (String × Value)) (st : Store) (s : String),
      (∀ kv ∈ fields, "lens_" ++ kv.1 ≠ s) →
      (fields.foldl (fun s' kv => storeSet s' ("lens_" ++ kv.1) kv.2) st) s = st s := by
  intro fields
  induction fields with
  | nil => intro st s _; rfl
  | cons kv rest ih =>
    intro st s hne
    rw [List.foldl_cons, ih _ s (fun kv' h' => hne kv' (List.mem_cons_of_mem _ h'))]
    unfold storeSet
    rw [if_neg fun he => hne kv (List.mem_cons_self _ _) he.symm]

lemma foldl_storeSet_lookup :
    ∀ (fields : List (String × Value)) (st : Store) (k : String) (v : Value),
      (fields.map Prod.fst).Nodup → (k, v) ∈ fields →
      (fields.foldl (fun s' kv => storeSet s' ("lens_" ++ kv.1) kv.2) st) ("lens_" ++ k) = some v := by
  intro fields
  induction fields with
  | nil => intro st k v _ hm; cases hm
  | cons kv rest ih =>
    intro st k v hnodup hm
    rw [List.map_cons] at hnodup
    obtain ⟨hq, hrest⟩ := List.nodup_cons.mp hnodup
    rcases List.mem_cons.mp hm with he | hm'
    · rw [List.foldl_cons]
      have hk : kv.1 = k := by rw [← he]
      have hfresh : ∀ kv' ∈ rest, "lens_" ++ kv'.1 ≠ "lens_" ++ k := by
        intro kv' h' he2
        have : kv'.1 = k := string_append_left_cancel he2
        exact hq (hk ▸ this ▸ List.mem_map_of_mem Prod.fst h')
      rw [foldl_storeSet_preserve rest _ _ hfresh]
      unfold storeSet
      rw [hk, if_pos rfl]
      have hv : kv.2 = v := by rw [← he]
      rw [hv]
    · exact ih _ k v hrest hm'

/-- The failure cases of the consolidated stats fetch, as the spec words
them: non-200 status, or a timeout/transport/parse error. -/
def lensFetchFailed : HttpResult → Prop
  | .exn => True
  | .response code body => code ≠ 200 ∨ body = none

/-- C7: if the consolidated stats fetch fails (non-200, timeout,
transport or parse error) every StatusStore entry is left unchanged
(stale-but-present); on success every top-level key `k` of the returned
object (a Python dict, so its keys are distinct) is written under the
source-prefixed key `lens_k`. -/
theorem lens_stats_merge (st : Store) (r : HttpResult) :
    (lensFetchFailed r → ∀ k, fetchLensInto st r k = st k) ∧
    (∀ fields, r = .response 200 (some fields) → (fields.map Prod.fst).Nodup →
      ∀ k v, (k, v) ∈ fields → fetchLensInto st r ("lens_" ++ k) = some v) := by
  constructor
  · intro hfail k
    cases r with
    | exn => rfl
    | response code body =>
      unfold fetchLensInto
      rcases hfail with hc | hb
      · rw [show fetch_lens_stats (.response code body) = [] from by
          simp [fetch_lens_stats, hc]]
        rfl
      · subst hb
        unfold fetch_lens_stats
        by_cases hc : code = 200 <;> simp [hc]
  · intro fields hr hnodup k v hkv
    subst hr
    have hflt : fetch_lens_stats (.response 200 (some fields)) = fields := by
      simp [fetch_lens_stats]
    unfold fetchLensInto
    rw [hflt]
    have hne : fields.isEmpty = false := by
      cases fields with
      | nil => cases hkv
      | cons a t => rfl
    rw [hne]
    simp only [Bool.false_eq_true, if_false]
    exact foldl_storeSet_lookup fields st k v hnodup hkv

theorem lens_stats_merge_witness :
    fetchLensInto emptyStore HttpResult.exn "lens_total_logs" = emptyStore "lens_total_logs" ∧
    fetchLensInto emptyStore (.response 200 (some [("total_logs", .num 5)]))
      ("lens_" ++ "total_logs") = some (.num 5) := by
  constructor
  · exact (lens_stats_merge emptyStore .exn).1 trivial "lens_total_logs"
  · exact (lens_stats_merge emptyStore _).2 [("total_logs", .num 5)] rfl (by simp)
      "total_logs" (.num 5) (by simp)

/-- C6 counterexample: the claim says every exception in a fetch+render
cycle of the running loop is caught at the scheduler boundary; but the
SWITCH_A forced-refresh path has no `try`/`except`, so an exception
there crashes the process and no error pattern is shown. -/
theorem button_refresh_exception_crashes :
    (loopIter 0 { brightUp := false, brightDown := false, switchA := true, now := 40000, buttonOutcome := .exn, periodicOutcome := .ok }).crashed = true ∧
    LoopEv.showError ∉ (loopIter 0 { brightUp := false, brightDown := false, switchA := true, now := 40000, buttonOutcome := .exn, periodicOutcome := .ok }).events := by
  exact ⟨rfl, by decide⟩

/-- C6 (amended): every exception raised during a periodic
(timer-driven) fetch+render cycle is caught at the scheduler boundary:
the error pattern is rendered instead of the normal frame, the process
does not crash, and the refresh timer is still reset, so a failing
endpoint is retried no more than once per refresh interval. -/
theorem periodic_refresh_exception_contained (lastFetch : Nat) (inp : IterInput)
    (hA : inp.switchA = false)
    (hElapsed : inp.now - lastFetch > REFRESH_INTERVAL_MS)
    (hExn : inp.periodicOutcome = .exn) :
    (loopIter lastFetch inp).crashed = false ∧
    LoopEv.showError ∈ (loopIter lastFetch inp).events ∧
    LoopEv.fetchRender ∉ (loopIter lastFetch inp).events ∧
    (loopIter lastFetch inp).lastFetch = inp.now := by
  unfold loopIter
  rw [hA]
  simp only [Bool.false_eq_true, if_false]
  unfold periodicPhase
  rw [if_pos hElapsed, hExn]
  cases hbu : inp.brightUp <;> cases hbd : inp.brightDown <;> simp

theorem periodic_refresh_exception_contained_witness :
    (loopIter 0 { brightUp := false, brightDown := false, switchA := false, now := 40000, buttonOutcome := .ok, periodicOutcome := .exn }).crashed = false ∧
    LoopEv.showError ∈ (loopIter 0 { brightUp := false, brightDown := false, switchA := false, now := 40000, buttonOutcome := .ok, periodicOutcome := .exn }).events ∧
    LoopEv.fetchRender ∉ (loopIter 0 { brightUp := false, brightDown := false, switchA := false, now := 40000, buttonOutcome := .ok, periodicOutcome := .exn }).events ∧
    (loopIter 0 { brightUp := false, brightDown := false, switchA := false, now := 40000, buttonOutcome := .ok, periodicOutcome := .exn }).lastFetch = 40000 :=
  periodic_refresh_exception_contained 0 _ rfl (by decide) rfl

/-! ## MetricMap and renderer theorems -/

set_option maxRecDepth 10000 in
/-- C8: the MetricMap construction is total and collision-free — every
coordinate (x, y) with x < 53 and y < 11 has exactly one descriptor,
every cell in rows 7-10 is Reserved with the synthesized name
`reserved_x_y`, and no two non-reserved cells share a name. -/
theorem metricmap_total_collision_free :
    (∀ x, x < 53 → ∀ y, y < 11 → ∃ c, ((x, y), c) ∈ get_led_mapping ∧
      ∀ c', ((x, y), c') ∈ get_led_mapping → c' = c) ∧
    (∀ p c, (p, c) ∈ get_led_mapping → 7 ≤ p.2 →
      c.type = "reserved" ∧ c.name = "reserved_" ++ toString p.1 ++ "_" ++ toString p.2) ∧
    ((get_led_mapping.filter fun pc => pc.2.type ≠ "reserved").map fun pc => pc.2.name).Nodup := by
  rw [get_led_mapping_eq]
  refine ⟨?_, ?_, nonreserved_names_nodup⟩
  · intro x hx y hy
    have hmem := ledFlat_total x hx y hy
    obtain ⟨pc, hpc, hfst⟩ := List.mem_map.mp hmem
    have he : ((x, y), pc.2) = pc := by rw [← hfst]
    refine ⟨pc.2, he ▸ hpc, ?_⟩
    intro c' hc'
    exact assoc_unique ledFlat_keys_nodup hc' (he ▸ hpc)
  · intro p c hm h7
    have hall := List.all_eq_true.mp ledFlat_rows7_reserved_check (p, c) hm
    simp only [Bool.or_eq_true, Bool.and_eq_true, decide_eq_true_eq] at hall
    rcases hall with h6 | hres
    · omega
    · exact hres

set_option maxRecDepth 10000 in
theorem metricmap_total_collision_free_witness :
    (reservedConfig (0, 9)).type = "reserved" ∧
    (reservedConfig (0, 9)).name = "reserved_" ++ toString (0 : Nat) ++ "_" ++ toString (9 : Nat) :=
  metricmap_total_collision_free.2.1 (0, 9) (reservedConfig (0, 9))
    (by rw [get_led_mapping_eq]; decide) (by decide)

lemma renderCell_ok {st : Store} {pc : (Nat × Nat) × MetricConfig} {op : DispOp}
    (h : renderCell st pc = .ok op) : ∃ c, op = DispOp.pixel pc.1.1 pc.1.2 c := by
  unfold renderCell at h
  cases hg : get_color_for_metric pc.2 (cellValue st pc.2) with
  | error e => rw [hg] at h; cases h
  | ok c =>
    rw [hg] at h
    exact ⟨c, (Except.ok.inj h).symm⟩

lemma renderCells_ok :
    ∀ (items : LedAssoc) (st : Store) (res : List DispOp),
      renderCells st items = .ok res →
      (∀ pc ∈ items, ∃ c, DispOp.pixel pc.1.1 pc.1.2 c ∈ res) ∧
      (∀ op ∈ res, ∃ x y c, op = DispOp.pixel x y c) := by
  intro items
  induction items with
  | nil =>
    intro st res h
    have : res = [] := (Except.ok.inj h).symm
    subst this
    exact ⟨fun pc hpc => absurd hpc (List.not_mem_nil pc), fun op hop => absurd hop (List.not_mem_nil op)⟩
  | cons pc rest ih =>
    intro st res h
    unfold renderCells at h
    cases h1 : renderCell st pc with
    | error e => rw [h1] at h; cases h
    | ok op =>
      rw [h1] at h
      cases h2 : renderCells st rest with
      | error e => rw [h2] at h; cases h
      | ok ops =>
        rw [h2] at h
        have hres : res = op :: ops := (Except.ok.inj h).symm
        subst hres
        obtain ⟨ihcov, ihall⟩ := ih st ops h2
        constructor
        · intro qc hqc
          rcases List.mem_cons.mp hqc with he | hq
          · obtain ⟨c, hc⟩ := renderCell_ok h1
            subst he
            exact ⟨c, hc ▸ List.mem_cons_self _ _⟩
          · obtain ⟨c, hc⟩ := ihcov qc hq
            exact ⟨c, List.mem_cons_of_mem _ hc⟩
        · intro o ho
          rcases List.mem_cons.mp ho with he | hq
          · obtain ⟨c, hc⟩ := renderCell_ok h1
            exact ⟨pc.1.1, pc.1.2, c, he ▸ hc⟩
          · exact ihall o hq

/-- C9: each completed grid render is frame-atomic — the trace of
surface operations starts with a clear, writes a color to each of the
583 grid coordinates, contains exactly one clear and one present, and
the present is the final operation (no presentation between the clear
and the last cell write). -/
theorem render_frame_atomic (st : Store) (tr : List DispOp)
    (h : render_display st = .ok tr) :
    tr.head? = some DispOp.clear ∧
    tr.getLast? = some DispOp.present ∧
    tr.countP (fun op => op = DispOp.present) = 1 ∧
    tr.countP (fun op => op = DispOp.clear) = 1 ∧
    (∀ x, x < 53 → ∀ y, y < 11 → ∃ c, DispOp.pixel x y c ∈ tr) := by
  unfold render_display at h
  rw [get_led_mapping_eq] at h
  cases hc : renderCells st ledFlat with
  | error e => rw [hc] at h; cases h
  | ok ops =>
    rw [hc] at h
    have htr : tr = DispOp.clear :: (ops ++ [DispOp.present]) := (Except.ok.inj h).symm
    subst htr
    obtain ⟨hcov, hall⟩ := renderCells_ok ledFlat st ops hc
    have hopsP : ops.countP (fun op => op = DispOp.present) = 0 := by
      rw [List.countP_eq_zero]
      intro op hop
      obtain ⟨x, y, c, he⟩ := hall op hop
      subst he
      simp
    have hopsC : ops.countP (fun op => op = DispOp.clear) = 0 := by
      rw [List.countP_eq_zero]
      intro op hop
      obtain ⟨x, y, c, he⟩ := hall op hop
      subst he
      simp
    refine ⟨rfl, ?_, ?_, ?_, ?_⟩
    · rw [List.getLast?_cons, List.getLast?_append]
      rfl
    · rw [List.countP_cons, List.countP_append, hopsP]
      simp
    · rw [List.countP_cons, List.countP_append, hopsC]
      simp
    · intro x hx y hy
      have hmem := ledFlat_total x hx y hy
      obtain ⟨pc, hpc, hfst⟩ := List.mem_map.mp hmem
      obtain ⟨c, hcmem⟩ := hcov pc hpc
      rw [hfst] at hcmem
      exact ⟨c, List.mem_cons_of_mem _ (List.mem_append_left _ hcmem)⟩

set_option maxRecDepth 10000 in
theorem render_frame_atomic_witness :
    ∃ tr, render_display emptyStore = Except.ok tr ∧ tr.head? = some DispOp.clear := by
  cases hc : renderCells emptyStore ledFlat with
  | error e =>
    have hok : exceptIsOk (renderCells emptyStore ledFlat) = true := by decide
    rw [hc] at hok
    cases hok
  | ok ops =>
    have h : render_display emptyStore = .ok (DispOp.clear :: (ops ++ [DispOp.present])) := by
      unfold render_display
      rw [get_led_mapping_eq, hc]
      rfl
    exact ⟨_, h, (render_frame_atomic emptyStore _ h).1⟩
